import Mathlib

/-!
Shallow embedding of `sf_streamlit_utils` (config.py, connection.py,
cache.py, helpers.py) and verification of its specification claims.

Python values stuffed into configuration fields are heterogeneous
(environment variables are strings, secrets may be strings, booleans or
integers); we model them with a small sum type `Val`.  Python `None` on an
optional field is modelled by `Option.none`.  Python dicts used as
keyword-argument accumulators are modelled by association lists with
last-write-wins update (`dictSet`).
-/

namespace SfUtils

/-- A dynamically typed Python value stored in a configuration field,
an extras mapping, or a secrets section. -/
inductive Val
  | str (s : String)
  | bool (b : Bool)
  | int (n : Int)
deriving DecidableEq

/-- Embedding of the dataclass `SnowflakeConfig` (config.py).
Every field is optional; the dataclass default for
`client_session_keepalive` is `True`, all other fields default to `None`,
and `extra` defaults to an empty dict. -/
structure SnowflakeConfig where
  account : Option Val := none
  user : Option Val := none
  password : Option Val := none
  private_key : Option Val := none
  private_key_file : Option Val := none
  private_key_passphrase : Option Val := none
  token : Option Val := none
  authenticator : Option Val := none
  warehouse : Option Val := none
  role : Option Val := none
  database : Option Val := none
  schema : Option Val := none
  client_session_keepalive : Option Val := some (Val.bool true)
  login_timeout : Option Val := none
  network_timeout : Option Val := none
  retries : Option Val := none
  retry_delay : Option Val := none
  extra : List (String × Val) := []
deriving DecidableEq

instance : Inhabited SnowflakeConfig := ⟨{}⟩

/-- The named (non-`extra`) fields of `SnowflakeConfig`, used to quantify
"for every configuration field". -/
inductive Field
  | account | user | password | private_key | private_key_file
  | private_key_passphrase | token | authenticator | warehouse | role
  | database | schema | client_session_keepalive | login_timeout
  | network_timeout | retries | retry_delay
deriving DecidableEq

/-- The Python attribute name of a field. -/
def Field.name : Field → String
  | .account => "account"
  | .user => "user"
  | .password => "password"
  | .private_key => "private_key"
  | .private_key_file => "private_key_file"
  | .private_key_passphrase => "private_key_passphrase"
  | .token => "token"
  | .authenticator => "authenticator"
  | .warehouse => "warehouse"
  | .role => "role"
  | .database => "database"
  | .schema => "schema"
  | .client_session_keepalive => "client_session_keepalive"
  | .login_timeout => "login_timeout"
  | .network_timeout => "network_timeout"
  | .retries => "retries"
  | .retry_delay => "retry_delay"

/-- Read a named field of a config. -/
def SnowflakeConfig.get (c : SnowflakeConfig) : Field → Option Val
  | .account => c.account
  | .user => c.user
  | .password => c.password
  | .private_key => c.private_key
  | .private_key_file => c.private_key_file
  | .private_key_passphrase => c.private_key_passphrase
  | .token => c.token
  | .authenticator => c.authenticator
  | .warehouse => c.warehouse
  | .role => c.role
  | .database => c.database
  | .schema => c.schema
  | .client_session_keepalive => c.client_session_keepalive
  | .login_timeout => c.login_timeout
  | .network_timeout => c.network_timeout
  | .retries => c.retries
  | .retry_delay => c.retry_delay

def allFields : List Field :=
  [.account, .user, .password, .private_key, .private_key_file,
   .private_key_passphrase, .token, .authenticator, .warehouse, .role,
   .database, .schema, .client_session_keepalive, .login_timeout,
   .network_timeout, .retries, .retry_delay]

/-- `{f.name for f in SnowflakeConfig.__dataclass_fields__.values() if f.name != "extra"}`. -/
def fieldNames : List String := allFields.map Field.name

/-- `s.lower()`, computed on the character data. -/
def lowerStr (s : String) : String := ⟨s.data.map Char.toLower⟩

/-- `s[n:]`, computed on the character data. -/
def strDrop (s : String) (n : Nat) : String := ⟨s.data.drop n⟩

/-- `s.startswith(p)`, computed on the character data. -/
def startsWith (s p : String) : Bool := p.data.isPrefixOf s.data

/-- Python dict assignment `d[k] = v`: overwrite in place if the key is
present, append otherwise. -/
def dictSet {α : Type} (d : List (String × α)) (k : String) (v : α) :
    List (String × α) :=
  if d.any (fun p => p.1 = k) then
    d.map (fun p => if p.1 = k then (k, v) else p)
  else d ++ [(k, v)]

/-- Python dict lookup `d.get(k)`. -/
def dictGet {α : Type} (d : List (String × α)) (k : String) : Option α :=
  (d.find? (fun p => p.1 = k)).map Prod.snd

/-- Python `d.update(u)`. -/
def dictUpdate {α : Type} (d u : List (String × α)) : List (String × α) :=
  u.foldl (fun acc p => dictSet acc p.1 p.2) d

/-- `SnowflakeConfig(**config_kwargs)`: each named field takes the keyword
argument when supplied, otherwise the dataclass default
(`client_session_keepalive = True`, everything else `None`). -/
def mkConfig (kw : Field → Option Val) : SnowflakeConfig where
  account := kw .account
  user := kw .user
  password := kw .password
  private_key := kw .private_key
  private_key_file := kw .private_key_file
  private_key_passphrase := kw .private_key_passphrase
  token := kw .token
  authenticator := kw .authenticator
  warehouse := kw .warehouse
  role := kw .role
  database := kw .database
  schema := kw .schema
  client_session_keepalive := some ((kw .client_session_keepalive).getD (Val.bool true))
  login_timeout := kw .login_timeout
  network_timeout := kw .network_timeout
  retries := kw .retries
  retry_delay := kw .retry_delay
  extra := []

/-- The loop body of `load_from_env`: split prefixed environment entries
into recognised keyword arguments and extras, keyed by the lowercased
suffix. -/
def envKwargs (environ : List (String × String)) (pre : String) :
    List (String × String) × List (String × String) :=
  environ.foldl
    (fun acc p =>
      if startsWith p.1 pre then
        let key := lowerStr (strDrop p.1 pre.data.length)
        if fieldNames.contains key then (dictSet acc.1 key p.2, acc.2)
        else (acc.1, dictSet acc.2 key p.2)
      else acc)
    ([], [])

/-- Embedding of `load_from_env` (config.py).  `environ` models
`os.environ.items()`.  Environment values are strings, so recognised
fields receive `Val.str` values; unsupplied fields take dataclass
defaults. -/
def load_from_env (environ : List (String × String))
    (pre : String := "SNOWFLAKE_") : SnowflakeConfig :=
  let ke := envKwargs environ pre
  let cfg := mkConfig (fun f => (dictGet ke.1 f.name).map Val.str)
  { cfg with extra := dictUpdate cfg.extra (ke.2.map (fun p => (p.1, Val.str p.2))) }

/-- The value the environment supplies for a field (via a variable named
prefix + uppercase field name), if any. -/
def envValue (environ : List (String × String)) (f : Field) : Option Val :=
  (dictGet (envKwargs environ "SNOWFLAKE_").1 f.name).map Val.str

/-- The loop body of `load_from_secrets`: split the `snowflake` section's
entries into recognised keyword arguments and extras, keyed by the
lowercased key. -/
def secretsKwargs (sf_section : List (String × Val)) :
    List (String × Val) × List (String × Val) :=
  sf_section.foldl
    (fun acc p =>
      let lower_key := lowerStr p.1
      if fieldNames.contains lower_key then (dictSet acc.1 lower_key p.2, acc.2)
      else (acc.1, dictSet acc.2 lower_key p.2))
    ([], [])

/-- Embedding of `load_from_secrets` (config.py).  The argument is `none`
when streamlit is unavailable, `st.secrets` is empty, or it has no
`snowflake` section; otherwise it is the section's entries. -/
def load_from_secrets (secrets : Option (List (String × Val))) :
    Option SnowflakeConfig :=
  match secrets with
  | none => none
  | some sf_section =>
      let ke := secretsKwargs sf_section
      let cfg := mkConfig (fun f => dictGet ke.1 f.name)
      some { cfg with extra := dictUpdate cfg.extra ke.2 }

/-- The value the secrets store supplies for a field, if any. -/
def secretsValue (secrets : Option (List (String × Val))) (f : Field) :
    Option Val :=
  match secrets with
  | none => none
  | some sec => dictGet (secretsKwargs sec).1 f.name

/-- One `setattr` step of the merge loop: a later source's field
overwrites only when it is not `None`. -/
def mergeField (b s : Option Val) : Option Val :=
  match s with
  | none => b
  | some v => some v

/-- The merge loop of `resolve_config`: `for k, v in src.__dict__.items():
if k == "extra": base.extra.update(v) elif v is not None: setattr(base, k, v)`. -/
def mergeNonNone (base src : SnowflakeConfig) : SnowflakeConfig where
  account := mergeField base.account src.account
  user := mergeField base.user src.user
  password := mergeField base.password src.password
  private_key := mergeField base.private_key src.private_key
  private_key_file := mergeField base.private_key_file src.private_key_file
  private_key_passphrase := mergeField base.private_key_passphrase src.private_key_passphrase
  token := mergeField base.token src.token
  authenticator := mergeField base.authenticator src.authenticator
  warehouse := mergeField base.warehouse src.warehouse
  role := mergeField base.role src.role
  database := mergeField base.database src.database
  schema := mergeField base.schema src.schema
  client_session_keepalive := mergeField base.client_session_keepalive src.client_session_keepalive
  login_timeout := mergeField base.login_timeout src.login_timeout
  network_timeout := mergeField base.network_timeout src.network_timeout
  retries := mergeField base.retries src.retries
  retry_delay := mergeField base.retry_delay src.retry_delay
  extra := dictUpdate base.extra src.extra

/-- Embedding of `resolve_config` (config.py) with an explicit object
store so that mutation and identity are observable.  `heap` is the store
(references are indices), `config` an optional reference to the caller's
explicit object.  Python's `base = config` aliases the caller's object;
each `setattr` mutates the object in the store; the function returns the
reference to `base`. -/
def resolve_config (secrets : Option (List (String × Val)))
    (environ : List (String × String)) (heap : List SnowflakeConfig)
    (config : Option Nat) : List SnowflakeConfig × Nat :=
  let secrets_config := load_from_secrets secrets
  let env_config := load_from_env environ
  match config with
  | none =>
      let ref := heap.length
      let heap1 := heap ++ [{}]
      let heap2 :=
        match secrets_config with
        | none => heap1
        | some sc => heap1.set ref (mergeNonNone (heap1.getD ref {}) sc)
      let heap3 := heap2.set ref (mergeNonNone (heap2.getD ref {}) env_config)
      (heap3, ref)
  | some ref =>
      let heap2 :=
        match secrets_config with
        | none => heap
        | some sc => heap.set ref (mergeNonNone (heap.getD ref {}) sc)
      let heap3 := heap2.set ref (mergeNonNone (heap2.getD ref {}) env_config)
      (heap3, ref)

/-- The value of the configuration object returned by `resolve_config`
when a fresh store holds just the caller's explicit object (or nothing). -/
def resolve_config_result (secrets : Option (List (String × Val)))
    (environ : List (String × String)) (config : Option SnowflakeConfig) :
    SnowflakeConfig :=
  match config with
  | none =>
      let r := resolve_config secrets environ [] none
      r.1.getD r.2 {}
  | some c =>
      let r := resolve_config secrets environ [c] (some 0)
      r.1.getD r.2 {}

/-!
Embedding of `connection.py`: the connection manager's staleness probe
and `get_connection`.  A handle's observable surface, as probed by
`_is_closed`, is its `is_closed` attribute (absent, a callable that
returns or raises, a plain value, or an attribute whose access raises)
and its `closed` fallback attribute (absent means the `getattr` default
`False`).  Connection creation is modelled by an oracle indexed by the
number of creation calls already made within the current
`get_connection` call; a creation that raises is `Except.error`.
-/

instance {ε α : Type} [DecidableEq ε] [DecidableEq α] : DecidableEq (Except ε α)
  | .ok a, .ok b =>
      if h : a = b then .isTrue (by rw [h])
      else .isFalse (by intro hc; cases hc; exact h rfl)
  | .ok _, .error _ => .isFalse (by intro hc; cases hc)
  | .error _, .ok _ => .isFalse (by intro hc; cases hc)
  | .error e, .error f =>
      if h : e = f then .isTrue (by rw [h])
      else .isFalse (by intro hc; cases hc; exact h rfl)

/-- The shape of a handle's `is_closed` attribute. -/
inductive ClosedAttr
  | absent
  | callableAttr (r : Except Unit Bool)
  | plainAttr (b : Bool)
  | accessRaises
deriving DecidableEq

/-- An opaque connection handle, restricted to the surface `_is_closed`
probes. -/
structure Handle where
  is_closed : ClosedAttr
  closed : Option Bool
deriving DecidableEq

/-- Embedding of `SnowflakeConnectionManager._is_closed`, applied to the
manager's `_connection` field. -/
def _is_closed (conn : Option Handle) : Bool :=
  match conn with
  | none => true
  | some h =>
      match h.is_closed with
      | .callableAttr (.ok b) => b
      | .callableAttr (.error _) => h.closed.getD false
      | .plainAttr b => b
      | .absent => h.closed.getD false
      | .accessRaises => h.closed.getD false

/-- Outcome of one `get_connection` call: the returned handle or the
propagated exception, the manager's `_connection` field afterwards, and
how many `_create_connection` calls were made. -/
structure GetResult where
  result : Except Unit Handle
  state : Option Handle
  creations : Nat
deriving DecidableEq

/-- Embedding of `SnowflakeConnectionManager.get_connection`.  `create n`
is the outcome of the (n+1)-th `_create_connection` call within this
`get_connection` call; `conn` is the manager's `_connection` field on
entry.  An assignment `self._connection = self._create_connection()` only
happens after the creation succeeds, so a raising creation leaves the
field unchanged. -/
def get_connection (create : Nat → Except Unit Handle)
    (conn : Option Handle) : GetResult :=
  match conn with
  | none =>
      match create 0 with
      | .error e => ⟨.error e, none, 1⟩
      | .ok h1 =>
          if _is_closed (some h1) then
            match create 1 with
            | .error e => ⟨.error e, some h1, 2⟩
            | .ok h2 => ⟨.ok h2, some h2, 2⟩
          else ⟨.ok h1, some h1, 1⟩
  | some h =>
      if _is_closed (some h) then
        match create 0 with
        | .error e => ⟨.error e, some h, 1⟩
        | .ok h2 => ⟨.ok h2, some h2, 1⟩
      else ⟨.ok h, some h, 0⟩

/-!
Embedding of `cache.py`: canonical cache keys.  Bind-parameter values are
JSON-like values serialised deterministically by `json.dumps`
(string escaping elided, which does not affect determinism of the
serialisation); `sorted` on `(key, dumps(value))` pairs compares tuples
lexicographically.
-/

/-- A JSON-like bind-parameter value. -/
inductive JVal
  | str (s : String)
  | num (n : Int)
  | bool (b : Bool)
  | null
deriving DecidableEq

/-- Deterministic serialisation standing for `json.dumps(v, sort_keys=True,
default=str)` on flat values. -/
def dumps : JVal → String
  | .str s => "\x22" ++ s ++ "\x22"
  | .num n => toString n
  | .bool true => "true"
  | .bool false => "false"
  | .null => "null"

/-- Strict lexicographic comparison of character data, the order Python
string comparison uses (by code point). -/
def lexLtB : List Char → List Char → Bool
  | [], [] => false
  | [], _ :: _ => true
  | _ :: _, [] => false
  | a :: as, b :: bs =>
      if a.toNat < b.toNat then true
      else if b.toNat < a.toNat then false
      else lexLtB as bs

/-- Python `s <= t` on strings. -/
def strLeB (s t : String) : Bool := ! lexLtB t.data s.data

/-- Python's tuple comparison `(k1, v1) <= (k2, v2)`: lexicographic, key
first. -/
def pairLeB (x y : String × String) : Bool :=
  lexLtB x.1.data y.1.data || (x.1 == y.1 && strLeB x.2 y.2)

/-- The comparison `sorted` uses on `(key, serialised-value)` pairs, as a
relation. -/
def pairLe (x y : String × String) : Prop := pairLeB x y = true

instance : DecidableRel pairLe := fun x y =>
  inferInstanceAs (Decidable (pairLeB x y = true))

/-- Embedding of `_hashable_params` (cache.py): `None` or an empty mapping
yield the empty tuple; otherwise the `(key, json.dumps(value))` pairs are
sorted.  The mapping is given as its items in insertion order. -/
def _hashable_params (params : Option (List (String × JVal))) :
    List (String × String) :=
  match params with
  | none => []
  | some ps =>
      if ps = [] then []
      else List.insertionSort pairLe (ps.map (fun p => (p.1, dumps p.2)))

/-- The cache key `st.cache_data` keys the memoised run function on in
`cached_read_df`: the SQL text and the canonical parameter tuple. -/
def cached_read_df_key (sql : String) (params : Option (List (String × JVal))) :
    String × List (String × String) :=
  (sql, _hashable_params params)

/-!
Embedding of the fetch paths of `cached_read_df._run` (cache.py) and
`read_df` (helpers.py), and of `write_df` / `stage_dataframe`
(helpers.py).  A cursor is restricted to the surface these functions
touch.  A pandas DataFrame is a column list (or `None`, letting pandas
infer columns) plus records.
-/

structure DataFrame where
  columns : Option (List String)
  records : List (List JVal)
deriving DecidableEq

/-- A cursor positioned on a finished query: the behaviour of
`fetch_pandas_all` (a DataFrame or a raised exception), the rows
`fetchall` returns, and the `description` metadata (column name and
remaining metadata per column). -/
structure Cursor where
  fetch_pandas_all : Except Unit DataFrame
  fetchall : List (List JVal)
  description : List (String × String)
deriving DecidableEq

/-- The tabular (or raw-row) result delivered to the caller. -/
inductive RunResult
  | df (d : DataFrame)
  | rows (rs : List (List JVal))
deriving DecidableEq

/-- Embedding of the fetch logic of `cached_read_df._run` (cache.py): with
pandas present, try the bulk columnar fetch and on any exception fall
back to `fetchall` plus `[c[0] for c in description] or None` as columns;
with pandas absent, return raw rows. -/
def cache_run (pd_available : Bool) (cur : Cursor) : RunResult :=
  if pd_available then
    match cur.fetch_pandas_all with
    | .ok d => .df d
    | .error _ =>
        let rows := cur.fetchall
        let cols := cur.description.map Prod.fst
        .df ⟨if cols = [] then none else some cols, rows⟩
  else .rows cur.fetchall

/-- Embedding of the fetch logic of `read_df` (helpers.py, non-cached
path, `raw_cursor=False`): try the bulk columnar fetch; on exception fall
back to `fetchall`, raising a RuntimeError when pandas is absent and
otherwise building the DataFrame with columns
`[c[0] for c in cur.description]`. -/
def read_df_fetch (pd_available : Bool) (cur : Cursor) :
    Except String RunResult :=
  match cur.fetch_pandas_all with
  | .ok d => .ok (.df d)
  | .error _ =>
      let rows := cur.fetchall
      if pd_available then
        .ok (.df ⟨some (cur.description.map Prod.fst), rows⟩)
      else .error "pandas is required to build DataFrame."

/-- The `(success, nchunks, nrows, output)` tuple returned by
`write_pandas`. -/
structure WPResult where
  success : Bool
  nchunks : Nat
  nrows : Nat
  output : List String
deriving DecidableEq

/-- Observable actions of `write_df`, in execution order. -/
inductive WriteEvent
  | exec (sql : String)
  | write_pandas (table : String) (db sch : Option Val)
deriving DecidableEq

/-- Embedding of `write_df` (helpers.py) from the point where the manager
is in hand: database/schema resolution (`database or manager.config.database`),
the conditional `TRUNCATE TABLE` via `manager.execute`, then the
`write_pandas` call whose tuple `wp` is returned unchanged.  The second
component is the trace of issued operations in order. -/
def write_df (overwrite : Bool) (table : String)
    (database sch : Option Val) (cfg : SnowflakeConfig) (wp : WPResult) :
    WPResult × List WriteEvent :=
  let db := match database with
    | some d => some d
    | none => cfg.database
  let sch2 := match sch with
    | some s => some s
    | none => cfg.schema
  let events :=
    (if overwrite then [WriteEvent.exec ("TRUNCATE TABLE " ++ table)] else [])
      ++ [WriteEvent.write_pandas table db sch2]
  (wp, events)

/-- Behaviour of `cur.upload_stream` in `stage_dataframe`: succeeds,
raises a non-AttributeError exception (which propagates, as only
`AttributeError` is caught), or raises `AttributeError` because the
connector version lacks it (triggering the temp-file fallback). -/
inductive UploadStream
  | ok_upload
  | fails
  | attr_error
deriving DecidableEq

/-- Observable actions of `stage_dataframe`'s upload step. -/
inductive StageEvent
  | upload_stream
  | write_tmp_file (path : String)
  | put (sql : String)
  | unlink_tmp (path : String)
deriving DecidableEq

/-- Embedding of the upload step of `stage_dataframe` (helpers.py).
Returns the outcome (the remote path, or the propagated exception),
whether the local temporary file still exists afterwards, and the trace
of actions.  In the fallback branch the code writes the temp file,
executes the PUT, and then calls `os.unlink(tmp_path)` sequentially, with
no finally-block, so the unlink only runs when the PUT returned
normally. -/
def stage_dataframe (stage file_name tmp_path : String)
    (us : UploadStream) (put_result : Except Unit Unit) :
    Except Unit String × Bool × List StageEvent :=
  let remote_path := stage ++ "/" ++ file_name
  match us with
  | .ok_upload => (.ok remote_path, false, [.upload_stream])
  | .fails => (.error (), false, [.upload_stream])
  | .attr_error =>
      let put_sql := "PUT file://" ++ tmp_path ++ " " ++ remote_path ++ " OVERWRITE = TRUE"
      match put_result with
      | .error e =>
          (.error e, true,
            [.upload_stream, .write_tmp_file tmp_path, .put put_sql])
      | .ok _ =>
          (.ok remote_path, false,
            [.upload_stream, .write_tmp_file tmp_path, .put put_sql,
             .unlink_tmp tmp_path])

/-! ### Helper lemmas -/

theorem char_toNat_inj {a b : Char} (h : a.toNat = b.toNat) : a = b := by
  rw [← Char.ofNat_toNat a, h, Char.ofNat_toNat]

theorem lexLtB_cons (a b : Char) (as bs : List Char) :
    lexLtB (a :: as) (b :: bs) =
      if a.toNat < b.toNat then true
      else if b.toNat < a.toNat then false
      else lexLtB as bs := rfl

theorem lexLtB_irrefl : ∀ l : List Char, lexLtB l l = false
  | [] => rfl
  | a :: as => by
      rw [lexLtB_cons, if_neg (by omega), if_neg (by omega)]
      exact lexLtB_irrefl as

theorem lexLtB_asymm : ∀ a b : List Char,
    lexLtB a b = true → lexLtB b a = false
  | [], [] => by intro h; exact Bool.noConfusion h
  | [], _ :: _ => by intro _; rfl
  | _ :: _, [] => by intro h; exact Bool.noConfusion h
  | a :: as, b :: bs => by
      intro h
      rw [lexLtB_cons] at h
      rw [lexLtB_cons]
      rcases Nat.lt_trichotomy a.toNat b.toNat with hlt | heq | hgt
      · rw [if_neg (by omega), if_pos hlt]
      · rw [if_neg (by omega), if_neg (by omega)] at h
        rw [if_neg (by omega), if_neg (by omega)]
        exact lexLtB_asymm as bs h
      · rw [if_neg (by omega), if_pos hgt] at h
        exact absurd h (by decide)

theorem lexLtB_conn : ∀ a b : List Char,
    lexLtB a b = false → lexLtB b a = false → a = b
  | [], [] => fun _ _ => rfl
  | [], _ :: _ => by intro h _; exact Bool.noConfusion h
  | _ :: _, [] => by intro _ h; exact Bool.noConfusion h
  | a :: as, b :: bs => by
      intro h1 h2
      rw [lexLtB_cons] at h1 h2
      rcases Nat.lt_trichotomy a.toNat b.toNat with hlt | heq | hgt
      · rw [if_pos hlt] at h1; exact absurd h1 (by decide)
      · rw [if_neg (by omega), if_neg (by omega)] at h1
        rw [if_neg (by omega), if_neg (by omega)] at h2
        rw [char_toNat_inj heq, lexLtB_conn as bs h1 h2]
      · rw [if_pos hgt] at h2; exact absurd h2 (by decide)

theorem lexLtB_trans : ∀ a b c : List Char,
    lexLtB a b = true → lexLtB b c = true → lexLtB a c = true
  | [], [], [] => by intro h _; exact Bool.noConfusion h
  | [], [], _ :: _ => by intro _ _; rfl
  | [], _ :: _, [] => by intro _ h; exact Bool.noConfusion h
  | [], _ :: _, _ :: _ => by intro _ _; rfl
  | _ :: _, [], _ => by intro h _; exact Bool.noConfusion h
  | _ :: _, _ :: _, [] => by intro _ h; exact Bool.noConfusion h
  | a :: as, b :: bs, c :: cs => by
      intro h1 h2
      rw [lexLtB_cons] at h1 h2 ⊢
      rcases Nat.lt_trichotomy a.toNat b.toNat with hab | hab | hab <;>
        rcases Nat.lt_trichotomy b.toNat c.toNat with hbc | hbc | hbc
      · rw [if_pos (by omega)]
      · rw [if_pos (by omega)]
      · rw [if_neg (by omega), if_pos hbc] at h2; exact absurd h2 (by decide)
      · rw [if_pos (by omega)]
      · rw [if_neg (by omega), if_neg (by omega)] at h1
        rw [if_neg (by omega), if_neg (by omega)] at h2
        rw [if_neg (by omega), if_neg (by omega)]
        exact lexLtB_trans as bs cs h1 h2
      · rw [if_neg (by omega), if_pos (by omega)] at h2; exact absurd h2 (by decide)
      · rw [if_neg (by omega), if_pos (by omega)] at h1; exact absurd h1 (by decide)
      · rw [if_neg (by omega), if_pos (by omega)] at h1; exact absurd h1 (by decide)
      · rw [if_neg (by omega), if_pos (by omega)] at h1; exact absurd h1 (by decide)

theorem str_data_inj {s t : String} (h : s.data = t.data) : s = t := by
  cases s; cases t; cases h; rfl

theorem pairLe_total (x y : String × String) : pairLe x y ∨ pairLe y x := by
  unfold pairLe pairLeB strLeB
  rcases hx : lexLtB x.1.data y.1.data
  · rcases hy : lexLtB y.1.data x.1.data
    · have hk : x.1 = y.1 := str_data_inj (lexLtB_conn _ _ hx hy)
      rcases hv : lexLtB y.2.data x.2.data
      · left; simp [hk, hv]
      · right
        have hv' : lexLtB x.2.data y.2.data = false := lexLtB_asymm _ _ hv
        simp [hk, hv']
    · right; simp [hy]
  · left; simp [hx]

theorem pairLe_trans (x y z : String × String)
    (hxy : pairLe x y) (hyz : pairLe y z) : pairLe x z := by
  unfold pairLe pairLeB strLeB at *
  simp only [Bool.or_eq_true, Bool.and_eq_true, beq_iff_eq, Bool.not_eq_true'] at hxy hyz ⊢
  rcases hxy with h1 | ⟨h1, h1'⟩ <;> rcases hyz with h2 | ⟨h2, h2'⟩
  · exact Or.inl (lexLtB_trans _ _ _ h1 h2)
  · exact Or.inl (h2 ▸ h1)
  · exact Or.inl (h1 ▸ h2)
  · refine Or.inr ⟨h1.trans h2, ?_⟩
    rcases hca : lexLtB z.2.data x.2.data
    · rfl
    · exfalso
      rcases hcb : lexLtB z.2.data y.2.data
      · rcases hbc : lexLtB y.2.data z.2.data
        · have : y.2 = z.2 := str_data_inj (lexLtB_conn _ _ hbc hcb)
          rw [this] at h1'
          rw [h1'] at hca
          cases hca
        · have := lexLtB_trans _ _ _ hbc hca
          rw [this] at h1'
          cases h1'
      · rw [hcb] at h2'
        cases h2'

theorem pairLe_antisymm (x y : String × String)
    (hxy : pairLe x y) (hyx : pairLe y x) : x = y := by
  unfold pairLe pairLeB strLeB at *
  simp only [Bool.or_eq_true, Bool.and_eq_true, beq_iff_eq, Bool.not_eq_true'] at hxy hyx
  rcases hxy with h1 | ⟨h1, h1'⟩
  · rcases hyx with h2 | ⟨h2, h2'⟩
    · rw [lexLtB_asymm _ _ h1] at h2; cases h2
    · rw [h2] at h1; rw [lexLtB_irrefl] at h1; cases h1
  · rcases hyx with h2 | ⟨h2, h2'⟩
    · rw [h1] at h2; rw [lexLtB_irrefl] at h2; cases h2
    · have hv : x.2 = y.2 := str_data_inj (lexLtB_conn _ _ h2' h1')
      exact Prod.ext h1 hv

theorem get_mergeNonNone (b s : SnowflakeConfig) (f : Field) :
    (mergeNonNone b s).get f = mergeField (b.get f) (s.get f) := by
  cases f <;> rfl

theorem get_set_extra (c : SnowflakeConfig) (e : List (String × Val)) (f : Field) :
    SnowflakeConfig.get { c with extra := e } f = c.get f := by
  cases f <;> rfl

theorem get_mkConfig_ne (kw : Field → Option Val) (f : Field)
    (hf : f ≠ .client_session_keepalive) : (mkConfig kw).get f = kw f := by
  cases f <;> first | rfl | exact absurd rfl hf

theorem get_mkConfig_keepalive (kw : Field → Option Val) :
    (mkConfig kw).get .client_session_keepalive =
      some ((kw .client_session_keepalive).getD (Val.bool true)) := rfl

theorem load_from_env_get_ne (environ : List (String × String)) (f : Field)
    (hf : f ≠ .client_session_keepalive) :
    (load_from_env environ).get f = envValue environ f := by
  unfold load_from_env envValue
  rw [get_set_extra, get_mkConfig_ne _ _ hf]

theorem load_from_env_get_keepalive (environ : List (String × String)) :
    (load_from_env environ).get .client_session_keepalive =
      some ((envValue environ .client_session_keepalive).getD (Val.bool true)) := by
  unfold load_from_env envValue
  rw [get_set_extra, get_mkConfig_keepalive]

theorem load_from_secrets_get_ne (sec : List (String × Val)) (f : Field)
    (hf : f ≠ .client_session_keepalive) :
    ((load_from_secrets (some sec)).getD {}).get f = secretsValue (some sec) f := by
  unfold load_from_secrets secretsValue
  rw [Option.getD_some, get_set_extra, get_mkConfig_ne _ _ hf]

theorem load_from_secrets_get_keepalive (sec : List (String × Val)) :
    ((load_from_secrets (some sec)).getD {}).get .client_session_keepalive =
      some ((secretsValue (some sec) .client_session_keepalive).getD (Val.bool true)) := by
  unfold load_from_secrets secretsValue
  rw [Option.getD_some, get_set_extra, get_mkConfig_keepalive]

theorem resolve_config_result_none_secrets (environ : List (String × String))
    (c : SnowflakeConfig) :
    resolve_config_result none environ (some c) =
      mergeNonNone c (load_from_env environ) := rfl

theorem resolve_config_result_some (sec : List (String × Val))
    (environ : List (String × String)) (c : SnowflakeConfig) :
    resolve_config_result (some sec) environ (some c) =
      mergeNonNone (mergeNonNone c ((load_from_secrets (some sec)).getD {}))
        (load_from_env environ) := rfl

theorem heap_getD_set_self (heap : List SnowflakeConfig) (r : Nat)
    (v : SnowflakeConfig) (hr : r < heap.length) :
    (heap.set r v).getD r {} = v := by
  rw [List.getD_eq_getElem?_getD, List.getElem?_set_self hr]
  rfl

theorem heap_getD_set_ne (heap : List SnowflakeConfig) (r j : Nat)
    (v : SnowflakeConfig) (hj : r ≠ j) :
    (heap.set r v).getD j {} = heap.getD j {} := by
  rw [List.getD_eq_getElem?_getD, List.getElem?_set_ne hj,
    List.getD_eq_getElem?_getD]

theorem load_from_env_get_of_supplied (environ : List (String × String))
    (f : Field) (v : Val) (hv : envValue environ f = some v) :
    (load_from_env environ).get f = some v := by
  by_cases hf : f = Field.client_session_keepalive
  · subst hf
    rw [load_from_env_get_keepalive, hv]
    rfl
  · rw [load_from_env_get_ne _ _ hf, hv]

theorem hashable_params_some (ps : List (String × JVal)) :
    _hashable_params (some ps) =
      if ps = [] then []
      else List.insertionSort pairLe (ps.map (fun p => (p.1, dumps p.2))) := rfl

/-! ### Claims -/

/-- C1 counterexample: the claim "if only the explicit object and secrets
supply a value for a field (the environment does not), the resolved value
is the secrets value" fails for `client_session_keepalive`.  With an
empty environment, an explicit config carrying
`client_session_keepalive = False` and a secrets section carrying
`client_session_keepalive = false`, `resolve_config` yields `True` (the
dataclass default carried by the environment-loaded config), not the
secrets value. -/
theorem c1_counterexample :
    envValue [] Field.client_session_keepalive = none ∧
    secretsValue (some [("client_session_keepalive", Val.bool false)])
        Field.client_session_keepalive = some (Val.bool false) ∧
    SnowflakeConfig.get { client_session_keepalive := some (Val.bool false) }
        Field.client_session_keepalive = some (Val.bool false) ∧
    (resolve_config_result (some [("client_session_keepalive", Val.bool false)]) []
        (some { client_session_keepalive := some (Val.bool false) })).get
        Field.client_session_keepalive ≠ some (Val.bool false) := by decide

/-- C1 (amended): for every field, an environment-supplied value wins
over secrets and the explicit object.  For every field other than
`client_session_keepalive`, when the environment does not supply the
field a secrets value wins over the explicit object, and when neither
later source supplies it the explicit value is kept.  For
`client_session_keepalive`, whenever the environment does not supply the
field the resolved value is `True` (the loader's dataclass default),
regardless of the secrets and explicit values. -/
theorem resolve_config_precedence (secrets : Option (List (String × Val)))
    (environ : List (String × String)) (c : SnowflakeConfig) (f : Field) :
    (∀ v, envValue environ f = some v →
      (resolve_config_result secrets environ (some c)).get f = some v) ∧
    (f ≠ .client_session_keepalive → envValue environ f = none →
      ∀ v, secretsValue secrets f = some v →
        (resolve_config_result secrets environ (some c)).get f = some v) ∧
    (f ≠ .client_session_keepalive → envValue environ f = none →
      secretsValue secrets f = none →
        (resolve_config_result secrets environ (some c)).get f = c.get f) ∧
    (f = .client_session_keepalive → envValue environ f = none →
      (resolve_config_result secrets environ (some c)).get f = some (Val.bool true)) := by
  refine ⟨?_, ?_, ?_, ?_⟩
  · intro v hv
    have hE := load_from_env_get_of_supplied environ f v hv
    cases secrets with
    | none => rw [resolve_config_result_none_secrets, get_mergeNonNone, hE]; rfl
    | some sec => rw [resolve_config_result_some, get_mergeNonNone, hE]; rfl
  · intro hf he v hs
    have hE : (load_from_env environ).get f = none := by
      rw [load_from_env_get_ne _ _ hf, he]
    cases secrets with
    | none => simp [secretsValue] at hs
    | some sec =>
        rw [resolve_config_result_some, get_mergeNonNone, hE, get_mergeNonNone,
          load_from_secrets_get_ne _ _ hf, hs]
        rfl
  · intro hf he hs
    have hE : (load_from_env environ).get f = none := by
      rw [load_from_env_get_ne _ _ hf, he]
    cases secrets with
    | none => rw [resolve_config_result_none_secrets, get_mergeNonNone, hE]; rfl
    | some sec =>
        rw [resolve_config_result_some, get_mergeNonNone, hE, get_mergeNonNone,
          load_from_secrets_get_ne _ _ hf, hs]
        rfl
  · intro hf he
    subst hf
    have hE : (load_from_env environ).get Field.client_session_keepalive
        = some (Val.bool true) := by
      rw [load_from_env_get_keepalive, he]
      rfl
    cases secrets with
    | none => rw [resolve_config_result_none_secrets, get_mergeNonNone, hE]; rfl
    | some sec => rw [resolve_config_result_some, get_mergeNonNone, hE]; rfl

/-- C1 witness: with no secrets, an environment variable
`SNOWFLAKE_USER=user_env` and an empty explicit config, the resolved
`user` is the environment value. -/
theorem resolve_config_precedence_witness :
    (resolve_config_result none [("SNOWFLAKE_USER", "user_env")] (some {})).get
        Field.user = some (Val.str "user_env") :=
  (resolve_config_precedence none [("SNOWFLAKE_USER", "user_env")] {} .user).1
    (Val.str "user_env") (by decide)

/-- C2 counterexample: with no secrets and an empty environment — so
both later sources omit every field — an explicit
`client_session_keepalive = False` is replaced by `True` in the resolved
config, refuting "a field explicitly set in the config object is never
replaced by a later source that omits the field". -/
theorem c2_counterexample :
    envValue [] Field.client_session_keepalive = none ∧
    secretsValue none Field.client_session_keepalive = none ∧
    SnowflakeConfig.get { client_session_keepalive := some (Val.bool false) }
        Field.client_session_keepalive = some (Val.bool false) ∧
    (resolve_config_result none []
        (some { client_session_keepalive := some (Val.bool false) })).get
        Field.client_session_keepalive = some (Val.bool true) := by decide

/-- C2 (amended): for every field other than `client_session_keepalive`,
a later source that does not supply the field leaves the earlier value
unchanged (explicit value kept when secrets and environment omit it;
secrets value kept when the environment omits it).  For
`client_session_keepalive` the secrets/environment loaders always carry
the dataclass default `True` when the key is absent, so an explicit
`False` is replaced by `True` whenever no
`SNOWFLAKE_CLIENT_SESSION_KEEPALIVE` environment variable is set. -/
theorem resolve_config_omission (secrets : Option (List (String × Val)))
    (environ : List (String × String)) (c : SnowflakeConfig) :
    (∀ f, f ≠ Field.client_session_keepalive → envValue environ f = none →
      secretsValue secrets f = none →
        (resolve_config_result secrets environ (some c)).get f = c.get f) ∧
    (∀ f, f ≠ Field.client_session_keepalive → envValue environ f = none →
      ∀ v, secretsValue secrets f = some v →
        (resolve_config_result secrets environ (some c)).get f = some v) ∧
    (envValue environ Field.client_session_keepalive = none →
      (resolve_config_result secrets environ (some c)).get
          Field.client_session_keepalive = some (Val.bool true)) := by
  refine ⟨?_, ?_, ?_⟩
  · intro f hf he hs
    have hE : (load_from_env environ).get f = none := by
      rw [load_from_env_get_ne _ _ hf, he]
    cases secrets with
    | none => rw [resolve_config_result_none_secrets, get_mergeNonNone, hE]; rfl
    | some sec =>
        rw [resolve_config_result_some, get_mergeNonNone, hE, get_mergeNonNone,
          load_from_secrets_get_ne _ _ hf, hs]
        rfl
  · intro f hf he v hs
    have hE : (load_from_env environ).get f = none := by
      rw [load_from_env_get_ne _ _ hf, he]
    cases secrets with
    | none => simp [secretsValue] at hs
    | some sec =>
        rw [resolve_config_result_some, get_mergeNonNone, hE, get_mergeNonNone,
          load_from_secrets_get_ne _ _ hf, hs]
        rfl
  · intro he
    have hE : (load_from_env environ).get Field.client_session_keepalive
        = some (Val.bool true) := by
      rw [load_from_env_get_keepalive, he]
      rfl
    cases secrets with
    | none => rw [resolve_config_result_none_secrets, get_mergeNonNone, hE]; rfl
    | some sec => rw [resolve_config_result_some, get_mergeNonNone, hE]; rfl

/-- C2 witness: an explicit `user` survives resolution when secrets and
environment are empty. -/
theorem resolve_config_omission_witness :
    (resolve_config_result none [] (some { user := some (Val.str "u0") })).get
        Field.user =
      SnowflakeConfig.get { user := some (Val.str "u0") } Field.user :=
  (resolve_config_omission none [] { user := some (Val.str "u0") }).1
    Field.user (by decide) (by decide) (by decide)

/-- C3: the canonical cache key is insertion-order independent — any two
parameter mappings holding the same key/value pairs normalise to the same
`_hashable_params` tuple and hence the same `cached_read_df` cache key —
and an empty mapping and absent parameters yield the same key. -/
theorem hashable_params_canonical (sql : String)
    (p1 p2 : List (String × JVal)) (hperm : p1.Perm p2) :
    _hashable_params (some p1) = _hashable_params (some p2) ∧
    _hashable_params (some []) = _hashable_params none ∧
    cached_read_df_key sql (some p1) = cached_read_df_key sql (some p2) := by
  have key : _hashable_params (some p1) = _hashable_params (some p2) := by
    by_cases h1 : p1 = []
    · subst h1
      rw [hperm.symm.eq_nil]
    · have h2 : p2 ≠ [] := fun h => h1 (h ▸ hperm).eq_nil
      rw [hashable_params_some, hashable_params_some, if_neg h1, if_neg h2]
      haveI : IsTotal (String × String) pairLe := ⟨pairLe_total⟩
      haveI : IsTrans (String × String) pairLe := ⟨pairLe_trans⟩
      haveI : IsAntisymm (String × String) pairLe := ⟨pairLe_antisymm⟩
      refine List.eq_of_perm_of_sorted ?_ (List.sorted_insertionSort _ _)
        (List.sorted_insertionSort _ _)
      exact (List.perm_insertionSort _ _).trans
        ((hperm.map _).trans (List.perm_insertionSort _ _).symm)
  exact ⟨key, rfl, by unfold cached_read_df_key; rw [key]⟩

/-- C3 witness: two concrete two-entry mappings differing only in
insertion order produce the same canonical tuple. -/
theorem hashable_params_canonical_witness :
    _hashable_params (some [("b", JVal.num 1), ("a", JVal.str "x")])
      = _hashable_params (some [("a", JVal.str "x"), ("b", JVal.num 1)]) :=
  (hashable_params_canonical "SELECT 1"
    [("b", JVal.num 1), ("a", JVal.str "x")]
    [("a", JVal.str "x"), ("b", JVal.num 1)] (by decide)).1

/-- C4: on a manager holding no handle, when the first created handle
immediately reports closed, `get_connection` creates exactly one more
handle (two creations in total), stores and returns the second handle,
and never makes a third creation call — with no assumption on whether
the second handle reports closed. -/
theorem get_connection_retry_once (create : Nat → Except Unit Handle)
    (h1 h2 : Handle) (hc0 : create 0 = .ok h1)
    (hclosed : _is_closed (some h1) = true) (hc1 : create 1 = .ok h2) :
    get_connection create none = ⟨.ok h2, some h2, 2⟩ := by
  simp [get_connection, hc0, hclosed, hc1]

/-- C4 witness: a creation oracle that always returns a handle reporting
closed — the call still stops after the second creation and returns the
second handle. -/
theorem get_connection_retry_once_witness :
    get_connection (fun _ => Except.ok ⟨ClosedAttr.plainAttr true, none⟩) none
      = ⟨.ok ⟨ClosedAttr.plainAttr true, none⟩,
         some ⟨ClosedAttr.plainAttr true, none⟩, 2⟩ :=
  get_connection_retry_once _ _ _ rfl (by decide) rfl

/-- C5: when the handle's `is_closed` probe raises (the callable raises,
or the attribute access itself raises) and no `closed` attribute is
present, `_is_closed` returns `false`, so `get_connection` performs no
creation and returns the existing handle with the manager state
unchanged. -/
theorem get_connection_indeterminate_liveness (h : Handle)
    (create : Nat → Except Unit Handle)
    (hprobe : h.is_closed = .callableAttr (.error ()) ∨ h.is_closed = .accessRaises)
    (hfb : h.closed = none) :
    _is_closed (some h) = false ∧
    get_connection create (some h) = ⟨.ok h, some h, 0⟩ := by
  have hic : _is_closed (some h) = false := by
    rcases hprobe with hp | hp <;> simp [_is_closed, hp, hfb]
  exact ⟨hic, by simp [get_connection, hic]⟩

/-- C5 witness: a handle whose `is_closed()` raises and which has no
`closed` attribute is treated as live and returned unchanged. -/
theorem get_connection_indeterminate_liveness_witness :
    _is_closed (some ⟨ClosedAttr.callableAttr (.error ()), none⟩) = false ∧
    get_connection (fun _ => Except.error ())
        (some ⟨ClosedAttr.callableAttr (.error ()), none⟩)
      = ⟨.ok ⟨ClosedAttr.callableAttr (.error ()), none⟩,
         some ⟨ClosedAttr.callableAttr (.error ()), none⟩, 0⟩ :=
  get_connection_indeterminate_liveness _ _ (Or.inl rfl) rfl

/-- C6: `write_df` returns the `write_pandas` tuple unchanged; the trace
contains a `TRUNCATE TABLE` statement for the destination table exactly
when the overwrite flag is set, and when it is set the truncate is
issued strictly before the bulk-load call. -/
theorem write_df_truncate_iff (o : Bool) (t : String) (db sch : Option Val)
    (cfg : SnowflakeConfig) (wp : WPResult) :
    (write_df o t db sch cfg wp).1 = wp ∧
    (WriteEvent.exec ("TRUNCATE TABLE " ++ t) ∈ (write_df o t db sch cfg wp).2
      ↔ o = true) ∧
    (o = true → (write_df o t db sch cfg wp).2 =
      [WriteEvent.exec ("TRUNCATE TABLE " ++ t),
       WriteEvent.write_pandas t
         (match db with | some d => some d | none => cfg.database)
         (match sch with | some s2 => some s2 | none => cfg.schema)]) := by
  cases o <;> simp [write_df]

/-- C6 witness: with `overwrite=True` the trace is the truncate followed
by the bulk load, and the bulk-load tuple comes back unchanged. -/
theorem write_df_truncate_iff_witness :
    (write_df true "T" none none {} ⟨true, 1, 2, []⟩).1 = ⟨true, 1, 2, []⟩ ∧
    (write_df true "T" none none {} ⟨true, 1, 2, []⟩).2 =
      [WriteEvent.exec ("TRUNCATE TABLE " ++ "T"),
       WriteEvent.write_pandas "T" none none] :=
  ⟨(write_df_truncate_iff true "T" none none {} ⟨true, 1, 2, []⟩).1,
   (write_df_truncate_iff true "T" none none {} ⟨true, 1, 2, []⟩).2.2 rfl⟩

/-- C7: when the bulk columnar fetch raises, neither the cached
executor's run function nor `read_df` surfaces the exception (pandas
being available): both assemble the result from the `fetchall` rows with
column names taken from the cursor's `description` metadata (the cached
path passing `None` instead of an empty column list when the description
is empty, per `[...] or None`). -/
theorem fetch_fallback (cur : Cursor)
    (herr : cur.fetch_pandas_all = .error ()) :
    cache_run true cur =
      .df ⟨if cur.description.map Prod.fst = [] then none
            else some (cur.description.map Prod.fst), cur.fetchall⟩ ∧
    read_df_fetch true cur =
      .ok (.df ⟨some (cur.description.map Prod.fst), cur.fetchall⟩) := by
  constructor <;> simp [cache_run, read_df_fetch, herr]

/-- C7 witness: a cursor whose bulk fetch raises yields a DataFrame
with the description's column name and the fetched rows, with no error
surfaced, on both paths. -/
theorem fetch_fallback_witness :
    cache_run true ⟨.error (), [[JVal.num 1]], [("ID", "")]⟩
      = .df ⟨some ["ID"], [[JVal.num 1]]⟩ ∧
    read_df_fetch true ⟨.error (), [[JVal.num 1]], [("ID", "")]⟩
      = .ok (.df ⟨some ["ID"], [[JVal.num 1]]⟩) :=
  fetch_fallback ⟨.error (), [[JVal.num 1]], [("ID", "")]⟩ rfl

/-- C8 counterexample: in the temp-file fallback path, when the PUT
command raises, the exception propagates and the temporary file is NOT
removed (no unlink event occurs), refuting "the temporary file is
removed after the upload in every case, including when the PUT command
raises". -/
theorem c8_counterexample :
    (stage_dataframe "@st" "f.csv" "/tmp/t.csv" .attr_error (.error ())).1
      = .error () ∧
    (stage_dataframe "@st" "f.csv" "/tmp/t.csv" .attr_error (.error ())).2.1
      = true ∧
    StageEvent.unlink_tmp "/tmp/t.csv" ∉
      (stage_dataframe "@st" "f.csv" "/tmp/t.csv" .attr_error (.error ())).2.2 := by
  decide

/-- C8 (amended): in the fallback path the temporary file is removed
after a successful PUT; when the PUT raises, the exception propagates to
the caller and the temporary file is left behind. -/
theorem stage_dataframe_tmp_cleanup (stage fname tmp : String)
    (pr : Except Unit Unit) :
    (pr = .ok () →
      (stage_dataframe stage fname tmp .attr_error pr).2.1 = false ∧
      (stage_dataframe stage fname tmp .attr_error pr).1
        = .ok (stage ++ "/" ++ fname)) ∧
    (∀ e, pr = .error e →
      (stage_dataframe stage fname tmp .attr_error pr).2.1 = true ∧
      (stage_dataframe stage fname tmp .attr_error pr).1 = .error e) := by
  constructor
  · rintro rfl
    exact ⟨rfl, rfl⟩
  · rintro e rfl
    exact ⟨rfl, rfl⟩

/-- C8 witness: a successful PUT removes the temporary file and returns
the remote path. -/
theorem stage_dataframe_tmp_cleanup_witness :
    (stage_dataframe "@s" "f.csv" "/tmp/t" .attr_error (.ok ())).2.1 = false ∧
    (stage_dataframe "@s" "f.csv" "/tmp/t" .attr_error (.ok ())).1
      = .ok ("@s" ++ "/" ++ "f.csv") :=
  (stage_dataframe_tmp_cleanup "@s" "f.csv" "/tmp/t" (.ok ())).1 rfl

/-- C9 counterexample: `resolve_config` on an explicit object (stored at
reference 0) returns reference 0 itself — not a new instance — mutates
the caller's object in place (its stored value changes), and a second
successive call returns the same reference again, refuting "returns a
new configuration instance and does not mutate the object passed in; two
successive calls produce distinct instances". -/
theorem c9_counterexample :
    (resolve_config none [("SNOWFLAKE_USER", "u")] [{}] (some 0)).2 = 0 ∧
    (resolve_config none [("SNOWFLAKE_USER", "u")] [{}] (some 0)).1.getD 0 {}
      ≠ ({} : SnowflakeConfig) ∧
    (resolve_config none [("SNOWFLAKE_USER", "u")]
        (resolve_config none [("SNOWFLAKE_USER", "u")] [{}] (some 0)).1
        (some 0)).2
      = (resolve_config none [("SNOWFLAKE_USER", "u")] [{}] (some 0)).2 := by
  decide

/-- C9 (amended): `resolve_config` with an explicit object returns that
same object (the passed reference), allocates no new instance (the store
size is unchanged), overwrites the object in place with the merged
configuration value, and leaves every other stored object untouched. -/
theorem resolve_config_in_place (secrets : Option (List (String × Val)))
    (environ : List (String × String)) (heap : List SnowflakeConfig)
    (r : Nat) (hr : r < heap.length) :
    (resolve_config secrets environ heap (some r)).2 = r ∧
    (resolve_config secrets environ heap (some r)).1.length = heap.length ∧
    (resolve_config secrets environ heap (some r)).1.getD r {} =
      resolve_config_result secrets environ (some (heap.getD r {})) ∧
    (∀ j, j ≠ r →
      (resolve_config secrets environ heap (some r)).1.getD j {}
        = heap.getD j {}) := by
  cases secrets with
  | none =>
      refine ⟨rfl, by simp [resolve_config, load_from_secrets], ?_, ?_⟩
      · show (heap.set r (mergeNonNone (heap.getD r {}) (load_from_env environ))).getD r {} = _
        rw [heap_getD_set_self _ _ _ hr, resolve_config_result_none_secrets]
      · intro j hj
        show (heap.set r _).getD j {} = heap.getD j {}
        rw [heap_getD_set_ne _ _ _ _ (Ne.symm hj)]
  | some sec =>
      have hr2 : r < (heap.set r (mergeNonNone (heap.getD r {})
          ((load_from_secrets (some sec)).getD {}))).length := by
        simpa using hr
      refine ⟨rfl, by simp [resolve_config, load_from_secrets], ?_, ?_⟩
      · show ((heap.set r _).set r
            (mergeNonNone ((heap.set r (mergeNonNone (heap.getD r {})
              ((load_from_secrets (some sec)).getD {}))).getD r {})
              (load_from_env environ))).getD r {} = _
        rw [heap_getD_set_self _ _ _ (by simpa using hr),
          heap_getD_set_self _ _ _ hr, resolve_config_result_some]
      · intro j hj
        show ((heap.set r _).set r _).getD j {} = heap.getD j {}
        rw [heap_getD_set_ne _ _ _ _ (Ne.symm hj),
          heap_getD_set_ne _ _ _ _ (Ne.symm hj)]

/-- C9 witness: concrete store with one object. -/
theorem resolve_config_in_place_witness :
    (resolve_config none [("SNOWFLAKE_USER", "u")] [{}] (some 0)).2 = 0 ∧
    (resolve_config none [("SNOWFLAKE_USER", "u")] [{}] (some 0)).1.length
      = ([{}] : List SnowflakeConfig).length ∧
    (resolve_config none [("SNOWFLAKE_USER", "u")] [{}] (some 0)).1.getD 0 {}
      = resolve_config_result none [("SNOWFLAKE_USER", "u")]
          (some (([{}] : List SnowflakeConfig).getD 0 {})) ∧
    (∀ j, j ≠ 0 →
      (resolve_config none [("SNOWFLAKE_USER", "u")] [{}] (some 0)).1.getD j {}
        = ([{}] : List SnowflakeConfig).getD j {}) :=
  resolve_config_in_place none [("SNOWFLAKE_USER", "u")] [{}] 0 (by decide)

/-- C10: on a manager holding a handle that reports stale, if the
replacement creation raises, the exception propagates to the caller and
the stored handle still references the previous handle (never a
partially constructed one); a later `get_connection` call whose creation
succeeds replaces the handle and returns the new one. -/
theorem get_connection_create_failure (h : Handle)
    (create create2 : Nat → Except Unit Handle)
    (hstale : _is_closed (some h) = true) (hfail : create 0 = .error ()) :
    get_connection create (some h) = ⟨.error (), some h, 1⟩ ∧
    (∀ h2, create2 0 = .ok h2 →
      get_connection create2 (some h) = ⟨.ok h2, some h2, 1⟩) := by
  constructor
  · simp [get_connection, hstale, hfail]
  · intro h2 hc
    simp [get_connection, hstale, hc]

/-- C10 witness: a stale handle, a failing creation (error propagated,
handle kept), then a succeeding retry on a later call. -/
theorem get_connection_create_failure_witness :
    get_connection (fun _ => Except.error ())
        (some ⟨ClosedAttr.plainAttr true, none⟩)
      = ⟨.error (), some ⟨ClosedAttr.plainAttr true, none⟩, 1⟩ ∧
    get_connection (fun _ => Except.ok ⟨ClosedAttr.plainAttr false, none⟩)
        (some ⟨ClosedAttr.plainAttr true, none⟩)
      = ⟨.ok ⟨ClosedAttr.plainAttr false, none⟩,
         some ⟨ClosedAttr.plainAttr false, none⟩, 1⟩ :=
  ⟨(get_connection_create_failure ⟨ClosedAttr.plainAttr true, none⟩
      (fun _ => Except.error ())
      (fun _ => Except.ok ⟨ClosedAttr.plainAttr false, none⟩)
      (by decide) rfl).1,
   (get_connection_create_failure ⟨ClosedAttr.plainAttr true, none⟩
      (fun _ => Except.error ())
      (fun _ => Except.ok ⟨ClosedAttr.plainAttr false, none⟩)
      (by decide) rfl).2 _ rfl⟩

end SfUtils
